import Mathlib

/-!
Shallow embedding of `scripts/log-writer.py` (cnc_render_supabase_mvp_poc):
a CLI utility that builds synthetic log payloads and inserts them into a
Supabase table on a timed loop.

Modelling conventions:
* Python exceptions become `Except Err`; `Err` distinguishes the
  `ValueError` raised by `build_log_payload` from the `RuntimeError`s
  raised by `load_config` and `insert_log` (the latter keeps the wrapped
  underlying cause, mirroring `raise ... from error`).
* Randomness (`random.choice`, `random.randint`) is modelled by an
  injected draw: `choice` maps a natural draw into the list by reduction
  modulo its length, `randint a b` maps a draw into `[a, b]`.  Every
  theorem quantifies over the draws, so nothing depends on a particular
  distribution.
* The Supabase client is modelled as an injected insertion capability
  `LogPayload → Except String Unit` (the `String` is the message of the
  underlying exception raised by `client.table(...).insert(...).execute()`).
* The loop body's observable actions (payload construction, insertion
  attempts, printed confirmations, `time.sleep`) are recorded as an
  event trace, so ordering claims are statements about the trace.
* Python integers are `Int`; the `--interval` float is carried opaquely
  as a `Rat` (it is only ever passed to `time.sleep`, never computed with).
-/

/-- Python-level errors raised by the script.  `runtimeError msg cause`
models `RuntimeError(msg)` where `cause` is the exception chained with
`raise ... from error` (`none` when no cause is chained). -/
inductive Err where
  | valueError (msg : String)
  | runtimeError (msg : String) (cause : Option String)
  deriving DecidableEq, Repr

/-- Constant `LOG_LEVELS` from the source. -/
def LOG_LEVELS : List String := ["debug", "info", "warning", "error"]

/-- Constant `LOG_MESSAGES` from the source. -/
def LOG_MESSAGES : List String :=
  [ "Starting scheduled task"
  , "Loading configuration"
  , "Fetching upstream payload"
  , "Transforming dataset"
  , "Completed batch successfully"
  , "Retrying after transient failure"
  , "Writing output artifacts"
  , "Heartbeat check" ]

/-- The nested `metadata` dict of a payload. -/
structure Metadata where
  run_id : String
  sequence : Int
  execution_ms : Int
  deriving DecidableEq, Repr

/-- The payload dict returned by `build_log_payload`. -/
structure LogPayload where
  script_name : String
  level : String
  message : String
  metadata : Metadata
  deriving DecidableEq, Repr

/-- Model of `random.choice(l)`: an element of `l`, selected by an
injected draw. -/
def choice (l : List String) (draw : Nat) : String :=
  l.getD (draw % l.length) ""

/-- Model of `random.randint(a, b)`: an integer in `[a, b]`, selected by an
injected draw (for `a ≤ b`). -/
def randint (a b : Int) (draw : Nat) : Int :=
  a + ((draw % (b - a + 1).toNat : Nat) : Int)

/-- The three random draws consumed by one `build_log_payload` call. -/
structure RandChoices where
  levelDraw : Nat
  messageDraw : Nat
  execDraw : Nat
  deriving DecidableEq, Repr

/-- The payload built in the success branch of `build_log_payload`. -/
def mkPayload (script_name run_id : String) (sequence : Int)
    (rng : RandChoices) : LogPayload :=
  { script_name := script_name
  , level := choice LOG_LEVELS rng.levelDraw
  , message := choice LOG_MESSAGES rng.messageDraw
  , metadata :=
    { run_id := run_id
    , sequence := sequence
    , execution_ms := randint 45 1400 rng.execDraw } }

/-- Function `build_log_payload(script_name, run_id, sequence)`: raises
`ValueError("script_name is required")` when `script_name` is empty
(`if not script_name`), otherwise returns the payload dict. -/
def build_log_payload (script_name run_id : String) (sequence : Int)
    (rng : RandChoices) : Except Err LogPayload :=
  if script_name = "" then
    .error (.valueError "script_name is required")
  else
    .ok (mkPayload script_name run_id sequence rng)

/-- Function `insert_log(client, payload)`: calls the client's insert and
wraps any
exception into `RuntimeError(f"Insert failed: {error}") from error`.
The client is the injected capability `ins`. -/
def insert_log (ins : LogPayload → Except String Unit)
    (payload : LogPayload) : Except Err Unit :=
  match ins payload with
  | .ok _ => .ok ()
  | .error e => .error (.runtimeError ("Insert failed: " ++ e) (some e))

/-- Python truthiness of `os.getenv`'s result: `None` and `""` are falsy. -/
def truthy : Option String → Bool
  | none => false
  | some s => s ≠ ""

/-- Function `load_config()`: reads `SUPABASE_URL` and
`SUPABASE_SERVICE_ROLE_KEY`
from the environment `env`; `if not url or not key` raises the
`RuntimeError` below, otherwise returns the pair. -/
def load_config (env : String → Option String) :
    Except Err (String × String) :=
  let url := env "SUPABASE_URL"
  let key := env "SUPABASE_SERVICE_ROLE_KEY"
  if ¬ truthy url ∨ ¬ truthy key then
    .error (.runtimeError
      "Missing SUPABASE_URL or SUPABASE_SERVICE_ROLE_KEY in env." none)
  else
    .ok (url.getD "", key.getD "")

/-- An observable action of one `run_writer` loop iteration: the payload
returned by `build_log_payload`, the insertion attempt handed to the
client, the printed confirmation line, and the `time.sleep(interval)`. -/
inductive Event where
  | built (p : LogPayload)
  | insertAttempt (p : LogPayload)
  | printedConfirmation (sequence : Int) (script_name : String)
  | slept (interval : Rat)
  deriving DecidableEq, Repr

/-- The insertion attempts recorded in a trace, in order. -/
def attempts (evs : List Event) : List LogPayload :=
  evs.filterMap fun e =>
    match e with
    | .insertAttempt p => some p
    | _ => none

/-- The `while follow or sequence <= count` loop of `run_writer`, for
`follow = false`, entered at a given `sequence`.  `rng sequence` supplies
the random draws consumed by the iteration at that sequence number.
Returns the event trace together with the error (if any) that aborted
the loop: a `ValueError` escaping `build_log_payload` or the
`RuntimeError` raised by `insert_log`. -/
def run_writer_from (ins : LogPayload → Except String Unit)
    (script_name run_id : String) (count : Int) (interval : Rat)
    (rng : Int → RandChoices) (sequence : Int) :
    List Event × Option Err :=
  if _h : sequence ≤ count then
    match build_log_payload script_name run_id sequence (rng sequence) with
    | .error e => ([], some e)
    | .ok payload =>
      match insert_log ins payload with
      | .error e => ([.built payload, .insertAttempt payload], some e)
      | .ok _ =>
        let rest := run_writer_from ins script_name run_id count interval
          rng (sequence + 1)
        (.built payload :: .insertAttempt payload ::
          .printedConfirmation sequence script_name ::
          .slept interval :: rest.1, rest.2)
  else
    ([], none)
termination_by (count + 1 - sequence).toNat
decreasing_by omega

/-- Function `run_writer(client, script_name, count, interval, follow)`
with the
run id injected (the source draws it from `uuid.uuid4()`) and the client
abstracted to `ins`.  With `follow = true` the loop condition never
becomes false, so the function has no terminating denotation and we
return `none`; with `follow = false` it runs `run_writer_from` starting
at `sequence = 1`. -/
def run_writer (ins : LogPayload → Except String Unit)
    (script_name : String) (count : Int) (interval : Rat) (follow : Bool)
    (run_id : String) (rng : Int → RandChoices) :
    Option (List Event × Option Err) :=
  if follow then none
  else some (run_writer_from ins script_name run_id count interval rng 1)

/-- How one invocation of `run_writer` (behind `create_client`) ends, as
seen by `main`'s `try` block: normal return, a `KeyboardInterrupt`
delivered while it was running (follow mode or mid-`time.sleep`), or an
escaping error.  Each outcome carries the events the loop produced
before ending. -/
inductive RunOutcome where
  | completed (events : List Event)
  | interrupted (events : List Event)
  | failed (events : List Event) (e : Err)
  deriving DecidableEq, Repr

/-- How the process ends: a normal exit that printed the given messages,
or an uncaught error propagating past `main`. -/
inductive MainResult where
  | exitNormal (messages : List String)
  | uncaught (e : Err)
  deriving DecidableEq, Repr

namespace LogWriter

/-- Function `main()` after argument parsing: `load_config()` runs outside
the
`try` block, so a configuration error escapes before `run_writer` is
ever invoked; then `run url key` abstracts `create_client` plus the
`run_writer` call, and the `except KeyboardInterrupt` handler turns an
interrupt into the printed acknowledgment `"Log writer stopped."` and a
normal return, while any other error escapes.  The second component is
the event trace the loop produced. -/
def main (env : String → Option String)
    (run : String → String → RunOutcome) : MainResult × List Event :=
  match load_config env with
  | .error e => (.uncaught e, [])
  | .ok (url, key) =>
    match run url key with
    | .completed evs => (.exitNormal [], evs)
    | .interrupted evs => (.exitNormal ["Log writer stopped."], evs)
    | .failed evs e => (.uncaught e, evs)

end LogWriter

/-- The four observable events of the loop iteration at sequence `t`,
in source order: build, insert attempt, printed confirmation, sleep. -/
def iterationEvents (script_name run_id : String) (interval : Rat)
    (rng : Int → RandChoices) (t : Int) : List Event :=
  [ .built (mkPayload script_name run_id t (rng t))
  , .insertAttempt (mkPayload script_name run_id t (rng t))
  , .printedConfirmation t script_name
  , .slept interval ]

/-- With a non-empty script name and an always-succeeding insertion
capability, the loop entered at sequence `s` runs exactly
`(count + 1 - s).toNat` full iterations and stops without error. -/
theorem run_writer_from_ok (ins : LogPayload → Except String Unit)
    (name rid : String) (count : Int) (interval : Rat)
    (rng : Int → RandChoices) (hname : name ≠ "")
    (hins : ∀ p, ins p = .ok ()) :
    ∀ (n : Nat) (s : Int), (count + 1 - s).toNat = n →
      run_writer_from ins name rid count interval rng s =
        (((List.range n).map
            (fun i : Nat =>
              iterationEvents name rid interval rng (s + (i : Int)))).flatten,
          none) := by
  intro n
  induction n with
  | zero =>
    intro s hs
    rw [run_writer_from]
    have hgt : ¬ s ≤ count := by omega
    simp [hgt]
  | succ n ih =>
    intro s hs
    rw [run_writer_from]
    have hle : s ≤ count := by omega
    have hbuild : build_log_payload name rid s (rng s) =
        .ok (mkPayload name rid s (rng s)) := by
      simp [build_log_payload, hname]
    have hrest := ih (s + 1) (by omega)
    simp only [hle, dif_pos, hbuild, insert_log, hins, hrest]
    rw [List.range_succ_eq_map]
    simp only [List.map_cons, List.map_map, List.flatten_cons]
    have hshift : (List.range n).map
        ((fun i : Nat =>
          iterationEvents name rid interval rng (s + (i : Int))) ∘ Nat.succ) =
        (List.range n).map
        (fun i : Nat =>
          iterationEvents name rid interval rng (s + 1 + (i : Int))) := by
      apply List.map_congr_left
      intro i _
      simp only [Function.comp]
      congr 1
      push_cast
      ring
    rw [hshift]
    simp [iterationEvents]

/-- When the insertion capability succeeds below sequence `k` and fails
with cause `c` at sequence `k` (with `k` within the count), the loop
entered at `s ≤ k` runs the full iterations `s, …, k - 1`, then at `k`
builds the payload, attempts the insertion, and stops at once with the
wrapping `RuntimeError`. -/
theorem run_writer_from_fail (ins : LogPayload → Except String Unit)
    (name rid : String) (count : Int) (interval : Rat)
    (rng : Int → RandChoices) (k : Int) (c : String)
    (hname : name ≠ "")
    (hok : ∀ p, p.metadata.sequence < k → ins p = .ok ())
    (hfail : ∀ p, p.metadata.sequence = k → ins p = .error c) :
    ∀ (n : Nat) (s : Int), (k - s).toNat = n → s ≤ k → k ≤ count →
      run_writer_from ins name rid count interval rng s =
        (((List.range n).map
            (fun i : Nat =>
              iterationEvents name rid interval rng (s + (i : Int)))).flatten
          ++ [.built (mkPayload name rid k (rng k)),
              .insertAttempt (mkPayload name rid k (rng k))],
          some (.runtimeError ("Insert failed: " ++ c) (some c))) := by
  intro n
  induction n with
  | zero =>
    intro s hs hsk hkc
    have hsk' : s = k := by omega
    subst hsk'
    rw [run_writer_from]
    have hle : s ≤ count := by omega
    have hbuild : build_log_payload name rid s (rng s) =
        .ok (mkPayload name rid s (rng s)) := by
      simp [build_log_payload, hname]
    have hins : ins (mkPayload name rid s (rng s)) = .error c :=
      hfail _ (by simp [mkPayload])
    simp [hle, hbuild, insert_log, hins]
  | succ n ih =>
    intro s hs hsk hkc
    rw [run_writer_from]
    have hle : s ≤ count := by omega
    have hbuild : build_log_payload name rid s (rng s) =
        .ok (mkPayload name rid s (rng s)) := by
      simp [build_log_payload, hname]
    have hins : ins (mkPayload name rid s (rng s)) = .ok () :=
      hok _ (by simp [mkPayload]; omega)
    have hrest := ih (s + 1) (by omega) (by omega) hkc
    simp only [hle, dif_pos, hbuild, insert_log, hins, hrest]
    rw [List.range_succ_eq_map]
    simp only [List.map_cons, List.map_map, List.flatten_cons]
    have hshift : (List.range n).map
        ((fun i : Nat =>
          iterationEvents name rid interval rng (s + (i : Int))) ∘ Nat.succ) =
        (List.range n).map
        (fun i : Nat =>
          iterationEvents name rid interval rng (s + 1 + (i : Int))) := by
      apply List.map_congr_left
      intro i _
      simp only [Function.comp]
      congr 1
      push_cast
      ring
    rw [hshift]
    simp [iterationEvents]

/-- Model `choice` of `random.choice` always returns an element of a
non-empty list. -/
theorem choice_mem (l : List String) (d : Nat) (h : l ≠ []) :
    choice l d ∈ l := by
  have hlen : 0 < l.length := List.length_pos.mpr h
  have hlt : d % l.length < l.length := Nat.mod_lt _ hlen
  rw [choice, List.getD_eq_getElem _ _ hlt]
  exact List.getElem_mem hlt

/-- Extraction `attempts` splits over list append. -/
theorem attempts_append (l₁ l₂ : List Event) :
    attempts (l₁ ++ l₂) = attempts l₁ ++ attempts l₂ := by
  simp [attempts]

/-- The insertion attempts recorded by a run of full iterations at the
given sequence numbers are exactly the corresponding payloads. -/
theorem attempts_iterations (name rid : String) (interval : Rat)
    (rng : Int → RandChoices) :
    ∀ l : List Int,
      attempts ((l.map (iterationEvents name rid interval rng)).flatten) =
        l.map (fun t => mkPayload name rid t (rng t)) := by
  intro l
  induction l with
  | nil => rfl
  | cons t l ih =>
    simp only [List.map_cons, List.flatten_cons, attempts_append]
    rw [ih]
    rfl

/-- The attempts of the trace produced by a successful bounded run,
re-indexed over the sequence numbers `s, s + 1, …`. -/
theorem attempts_ok_trace (name rid : String) (interval : Rat)
    (rng : Int → RandChoices) (s : Int) (n : Nat) :
    attempts (((List.range n).map
        (fun i : Nat =>
          iterationEvents name rid interval rng (s + (i : Int)))).flatten) =
      (List.range n).map
        (fun i : Nat =>
          mkPayload name rid (s + (i : Int)) (rng (s + (i : Int)))) := by
  have hmaps : (List.range n).map
      (fun i : Nat => iterationEvents name rid interval rng (s + (i : Int))) =
      ((List.range n).map (fun i : Nat => s + (i : Int))).map
        (iterationEvents name rid interval rng) := by
    rw [List.map_map]
    rfl
  rw [hmaps, attempts_iterations, List.map_map]
  rfl

/-- C1: for every non-empty `script_name`, every always-succeeding
injected insertion capability, and every non-negative count `N`, calling
`run_writer` with `follow = false` performs exactly `N` insertion
attempts and then stops without further action (no error); for `N = 0`
it performs zero insertions. -/
theorem C1_exact_count_of_attempts (ins : LogPayload → Except String Unit)
    (name rid : String) (count : Int) (interval : Rat)
    (rng : Int → RandChoices) (hname : name ≠ "")
    (hins : ∀ p, ins p = .ok ()) (hcount : 0 ≤ count) :
    ∃ evs, run_writer ins name count interval false rid rng =
        some (evs, none) ∧
      (attempts evs).length = count.toNat := by
  have hrun := run_writer_from_ok ins name rid count interval rng hname hins
    count.toNat 1 (by omega)
  refine ⟨((List.range count.toNat).map
      (fun i : Nat =>
        iterationEvents name rid interval rng (1 + (i : Int)))).flatten,
    ?_, ?_⟩
  · rw [run_writer, if_neg (by simp), hrun]
  · rw [attempts_ok_trace]
    simp

/-- C1 witness: a concrete run with `count = 3` and an always-succeeding
capability performs exactly 3 insertion attempts. -/
theorem C1_exact_count_of_attempts_witness :
    ("demo-script" ≠ "" ∧ (0 : Int) ≤ 3) ∧
    ∃ evs, run_writer (fun _ => .ok ()) "demo-script" 3 1 false "run"
        (fun _ => ⟨0, 0, 0⟩) = some (evs, none) ∧
      (attempts evs).length = (3 : Int).toNat :=
  ⟨⟨by decide, by decide⟩,
    C1_exact_count_of_attempts (fun _ => .ok ()) "demo-script" "run" 3 1
      (fun _ => ⟨0, 0, 0⟩) (by decide) (fun _ => rfl) (by decide)⟩

/-- C2: within one execution of `run_writer` (one injected `run_id`),
with an always-succeeding insertion capability, every emitted record
carries that same `run_id`, and the sequence values of the emitted
records are exactly `1, 2, 3, …` in order — starting at 1, increasing by
exactly 1 per record, never reused or skipped. -/
theorem C2_run_id_and_sequence_invariant
    (ins : LogPayload → Except String Unit)
    (name rid : String) (count : Int) (interval : Rat)
    (rng : Int → RandChoices) (hname : name ≠ "")
    (hins : ∀ p, ins p = .ok ()) (hcount : 0 ≤ count) :
    ∃ evs, run_writer ins name count interval false rid rng =
        some (evs, none) ∧
      (∀ p ∈ attempts evs, p.metadata.run_id = rid) ∧
      (attempts evs).map (fun p => p.metadata.sequence) =
        (List.range count.toNat).map (fun i : Nat => 1 + (i : Int)) := by
  have hrun := run_writer_from_ok ins name rid count interval rng hname hins
    count.toNat 1 (by omega)
  refine ⟨((List.range count.toNat).map
      (fun i : Nat =>
        iterationEvents name rid interval rng (1 + (i : Int)))).flatten,
    ?_, ?_, ?_⟩
  · rw [run_writer, if_neg (by simp), hrun]
  · rw [attempts_ok_trace]
    intro p hp
    simp only [List.mem_map] at hp
    obtain ⟨i, _, rfl⟩ := hp
    rfl
  · rw [attempts_ok_trace, List.map_map]
    rfl

/-- C2 witness: a concrete run with `count = 2` emits records carrying
the injected run id with sequences `[1, 2]`. -/
theorem C2_run_id_and_sequence_invariant_witness :
    ("demo-script" ≠ "" ∧ (0 : Int) ≤ 2) ∧
    ∃ evs, run_writer (fun _ => .ok ()) "demo-script" 2 1 false "run"
        (fun _ => ⟨0, 0, 0⟩) = some (evs, none) ∧
      (∀ p ∈ attempts evs, p.metadata.run_id = "run") ∧
      (attempts evs).map (fun p => p.metadata.sequence) =
        (List.range (2 : Int).toNat).map (fun i : Nat => 1 + (i : Int)) :=
  ⟨⟨by decide, by decide⟩,
    C2_run_id_and_sequence_invariant (fun _ => .ok ()) "demo-script" "run" 2
      1 (fun _ => ⟨0, 0, 0⟩) (by decide) (fun _ => rfl) (by decide)⟩

/-- C3: if the injected insertion capability succeeds below sequence `k`
and fails with cause `c` on attempt `k` (with `1 ≤ k ≤ count`), then
`run_writer` stops immediately after attempt `k`: the attempted
sequences are exactly `1, …, k` (no retry of `k`, no attempt `k + 1`)
and the propagated error is the `RuntimeError` wrapping the underlying
cause, `"Insert failed: " ++ c` chained from `c`. -/
theorem C3_insert_failure_aborts (ins : LogPayload → Except String Unit)
    (name rid : String) (count : Int) (interval : Rat)
    (rng : Int → RandChoices) (k : Int) (c : String)
    (hname : name ≠ "") (hk1 : 1 ≤ k) (hkc : k ≤ count)
    (hok : ∀ p, p.metadata.sequence < k → ins p = .ok ())
    (hfail : ∀ p, p.metadata.sequence = k → ins p = .error c) :
    ∃ evs, run_writer ins name count interval false rid rng =
        some (evs, some (.runtimeError ("Insert failed: " ++ c) (some c))) ∧
      (attempts evs).map (fun p => p.metadata.sequence) =
        (List.range k.toNat).map (fun i : Nat => 1 + (i : Int)) := by
  have hrun := run_writer_from_fail ins name rid count interval rng k c
    hname hok hfail (k - 1).toNat 1 rfl hk1 hkc
  refine ⟨((List.range (k - 1).toNat).map
      (fun i : Nat =>
        iterationEvents name rid interval rng (1 + (i : Int)))).flatten
    ++ [.built (mkPayload name rid k (rng k)),
        .insertAttempt (mkPayload name rid k (rng k))], ?_, ?_⟩
  · rw [run_writer, if_neg (by simp), hrun]
  · rw [attempts_append, attempts_ok_trace]
    have hlast : attempts [.built (mkPayload name rid k (rng k)),
        .insertAttempt (mkPayload name rid k (rng k))] =
        [mkPayload name rid k (rng k)] := rfl
    rw [hlast, List.map_append, List.map_map]
    have hk : k.toNat = (k - 1).toNat + 1 := by omega
    rw [hk, List.range_succ, List.map_append]
    congr 1
    simp only [List.map_cons, List.map_nil, mkPayload]
    congr 1
    omega

/-- C3 witness: with `count = 5` and a capability that succeeds below
sequence 2 and fails at sequence 2 with cause `"boom"`, the run attempts
sequences `[1, 2]` and aborts with the wrapping error. -/
theorem C3_insert_failure_aborts_witness :
    ("demo-script" ≠ "" ∧ (1 : Int) ≤ 2 ∧ (2 : Int) ≤ 5 ∧
      (∀ p : LogPayload, p.metadata.sequence < 2 →
        (if p.metadata.sequence ≥ 2 then (.error "boom" : Except String Unit)
          else .ok ()) = .ok ()) ∧
      (∀ p : LogPayload, p.metadata.sequence = 2 →
        (if p.metadata.sequence ≥ 2 then (.error "boom" : Except String Unit)
          else .ok ()) = .error "boom")) ∧
    ∃ evs, run_writer
        (fun p => if p.metadata.sequence ≥ 2 then .error "boom" else .ok ())
        "demo-script" 5 1 false "run" (fun _ => ⟨0, 0, 0⟩) =
        some (evs,
          some (.runtimeError ("Insert failed: " ++ "boom") (some "boom"))) ∧
      (attempts evs).map (fun p => p.metadata.sequence) =
        (List.range (2 : Int).toNat).map (fun i : Nat => 1 + (i : Int)) :=
  ⟨⟨by decide, by decide, by decide,
      fun p hp => by simp [show ¬ p.metadata.sequence ≥ 2 by omega],
      fun p hp => by simp [hp]⟩,
    C3_insert_failure_aborts
      (fun p => if p.metadata.sequence ≥ 2 then .error "boom" else .ok ())
      "demo-script" "run" 5 1 (fun _ => ⟨0, 0, 0⟩) 2 "boom" (by decide)
      (by decide) (by decide)
      (fun p hp => by simp [show ¬ p.metadata.sequence ≥ 2 by omega])
      (fun p hp => by simp [hp])⟩

/-- C8: each iteration's observable actions occur in exactly this order —
build the record from the current `run_id` and `sequence`, attempt the
insertion, print the confirmation noting the sequence number and script
name, then (after the `sequence += 1` visible in the next iteration's
record) sleep for the configured interval — and the trailing sleep also
follows the final iteration: the whole trace is the concatenation of the
four-event blocks for sequences `1, …, count`. -/
theorem C8_iteration_event_order (ins : LogPayload → Except String Unit)
    (name rid : String) (count : Int) (interval : Rat)
    (rng : Int → RandChoices) (hname : name ≠ "")
    (hins : ∀ p, ins p = .ok ()) (hcount : 0 ≤ count) :
    run_writer ins name count interval false rid rng =
      some ((((List.range count.toNat).map
        (fun i : Nat =>
          [ .built (mkPayload name rid (1 + (i : Int)) (rng (1 + (i : Int))))
          , .insertAttempt
              (mkPayload name rid (1 + (i : Int)) (rng (1 + (i : Int))))
          , .printedConfirmation (1 + (i : Int)) name
          , .slept interval ])).flatten), none) := by
  have hrun := run_writer_from_ok ins name rid count interval rng hname hins
    count.toNat 1 (by omega)
  rw [run_writer, if_neg (by simp), hrun]
  rfl

/-- C8 witness: a concrete run with `count = 1` produces exactly the
four events of one iteration, the trailing sleep included. -/
theorem C8_iteration_event_order_witness :
    ("demo-script" ≠ "" ∧ (0 : Int) ≤ 1) ∧
    run_writer (fun _ => .ok ()) "demo-script" 1 1 false "run"
        (fun _ => ⟨0, 0, 0⟩) =
      some ((((List.range (1 : Int).toNat).map
        (fun i : Nat =>
          [ .built (mkPayload "demo-script" "run" (1 + (i : Int))
              ((fun _ => (⟨0, 0, 0⟩ : RandChoices)) (1 + (i : Int))))
          , .insertAttempt (mkPayload "demo-script" "run" (1 + (i : Int))
              ((fun _ => (⟨0, 0, 0⟩ : RandChoices)) (1 + (i : Int))))
          , .printedConfirmation (1 + (i : Int)) "demo-script"
          , .slept 1 ])).flatten), none) :=
  ⟨⟨by decide, by decide⟩,
    C8_iteration_event_order (fun _ => .ok ()) "demo-script" "run" 1 1
      (fun _ => ⟨0, 0, 0⟩) (by decide) (fun _ => rfl) (by decide)⟩

/-- C9: for every negative count with `follow = false`, `run_writer`
performs zero insertion attempts and returns normally without error:
the loop condition `sequence <= count` is already false at
`sequence = 1`. -/
theorem C9_negative_count_no_attempts (ins : LogPayload → Except String Unit)
    (name rid : String) (count : Int) (interval : Rat)
    (rng : Int → RandChoices) (hcount : count < 0) :
    run_writer ins name count interval false rid rng = some ([], none) := by
  rw [run_writer, if_neg (by simp), run_writer_from]
  have : ¬ (1 : Int) ≤ count := by omega
  simp [this]

/-- C9 witness: count `-1` yields the empty trace and no error. -/
theorem C9_negative_count_no_attempts_witness :
    ((-1 : Int) < 0) ∧
    run_writer (fun _ => .ok ()) "demo-script" (-1) 1 false "run"
        (fun _ => ⟨0, 0, 0⟩) = some ([], none) :=
  ⟨by decide,
    C9_negative_count_no_attempts (fun _ => .ok ()) "demo-script" "run" (-1)
      1 (fun _ => ⟨0, 0, 0⟩) (by decide)⟩

/-- C5: function `build_log_payload` fails if and only if `script_name`
is the
empty string — for every non-empty name (and any `run_id`, `sequence`,
draws) it returns a payload — and with an empty name the bounded loop
stops with the `ValueError` before any insertion is attempted (its trace
is empty, so it records no insertion attempt). -/
theorem C5_build_fails_iff_empty_name (name rid : String) (t : Int)
    (r : RandChoices) (ins : LogPayload → Except String Unit)
    (count : Int) (interval : Rat) (rng : Int → RandChoices)
    (hcount : 1 ≤ count) :
    ((∃ e, build_log_payload name rid t r = .error e) ↔ name = "") ∧
    (name ≠ "" →
      build_log_payload name rid t r = .ok (mkPayload name rid t r)) ∧
    run_writer ins "" count interval false rid rng =
      some ([], some (.valueError "script_name is required")) := by
  refine ⟨?_, ?_, ?_⟩
  · constructor
    · rintro ⟨e, he⟩
      by_contra hne
      simp [build_log_payload, hne] at he
    · intro hempty
      exact ⟨.valueError "script_name is required",
        by simp [build_log_payload, hempty]⟩
  · intro hne
    simp [build_log_payload, hne]
  · rw [run_writer, if_neg (by simp), run_writer_from]
    have hle : (1 : Int) ≤ count := hcount
    simp [hle, build_log_payload]

/-- C5 witness: at a concrete non-empty name the builder succeeds, at
the empty name it fails, and the loop with empty name and `count = 4`
makes no insertion attempt. -/
theorem C5_build_fails_iff_empty_name_witness :
    ((1 : Int) ≤ 4) ∧
    (((∃ e, build_log_payload "demo-script" "run" 1 ⟨0, 0, 0⟩ = .error e) ↔
        "demo-script" = "") ∧
      ("demo-script" ≠ "" →
        build_log_payload "demo-script" "run" 1 ⟨0, 0, 0⟩ =
          .ok (mkPayload "demo-script" "run" 1 ⟨0, 0, 0⟩)) ∧
      run_writer (fun _ => .ok ()) "" 4 1 false "run" (fun _ => ⟨0, 0, 0⟩) =
        some ([], some (.valueError "script_name is required"))) :=
  ⟨by decide,
    C5_build_fails_iff_empty_name "demo-script" "run" 1 ⟨0, 0, 0⟩
      (fun _ => .ok ()) 4 1 (fun _ => ⟨0, 0, 0⟩) (by decide)⟩

/-- C7: every payload returned by `build_log_payload` has its randomized
fields inside their fixed domains: `level` is one of the four
`LOG_LEVELS`, `message` is one of the eight `LOG_MESSAGES` templates,
and `execution_ms` is an integer with `45 ≤ execution_ms ≤ 1400`. -/
theorem C7_random_fields_in_domain (name rid : String) (t : Int)
    (r : RandChoices) (p : LogPayload)
    (h : build_log_payload name rid t r = .ok p) :
    p.level ∈ LOG_LEVELS ∧ p.message ∈ LOG_MESSAGES ∧
    45 ≤ p.metadata.execution_ms ∧ p.metadata.execution_ms ≤ 1400 := by
  by_cases hname : name = ""
  · simp [build_log_payload, hname] at h
  · rw [build_log_payload, if_neg hname] at h
    obtain rfl : mkPayload name rid t r = p := by
      simpa using h
    refine ⟨choice_mem _ _ (by decide), choice_mem _ _ (by decide), ?_, ?_⟩
    · show (45 : Int) ≤ randint 45 1400 r.execDraw
      rw [randint]
      omega
    · show randint 45 1400 r.execDraw ≤ 1400
      rw [randint]
      have hmod : r.execDraw % (1400 - 45 + 1 : Int).toNat <
          (1400 - 45 + 1 : Int).toNat := Nat.mod_lt _ (by norm_num)
      omega

/-- C7 witness: the payload built at concrete draws lies in the fixed
domains. -/
theorem C7_random_fields_in_domain_witness :
    (build_log_payload "demo-script" "run" 1 ⟨1, 5, 9999⟩ =
      .ok (mkPayload "demo-script" "run" 1 ⟨1, 5, 9999⟩)) ∧
    ((mkPayload "demo-script" "run" 1 ⟨1, 5, 9999⟩).level ∈ LOG_LEVELS ∧
     (mkPayload "demo-script" "run" 1 ⟨1, 5, 9999⟩).message ∈ LOG_MESSAGES ∧
     45 ≤ (mkPayload "demo-script" "run" 1 ⟨1, 5, 9999⟩).metadata.execution_ms ∧
     (mkPayload "demo-script" "run" 1 ⟨1, 5, 9999⟩).metadata.execution_ms ≤ 1400) :=
  ⟨rfl,
    C7_random_fields_in_domain "demo-script" "run" 1 ⟨1, 5, 9999⟩
      (mkPayload "demo-script" "run" 1 ⟨1, 5, 9999⟩) rfl⟩

/-- The fixed message of the configuration error raised by
`load_config`. -/
def missingConfigMsg : String :=
  "Missing SUPABASE_URL or SUPABASE_SERVICE_ROLE_KEY in env."

/-- C4: with valid configuration, an external interrupt delivered while
`run_writer` runs (follow mode or mid-delay) is caught by `main`'s
handler: the program exits normally with the distinct acknowledgment
`"Log writer stopped."` instead of an error report, whereas an insertion
failure escapes as an uncaught error — the two paths are distinct. -/
theorem C4_interrupt_clean_stop (env : String → Option String)
    (evs : List Event)
    (hurl : truthy (env "SUPABASE_URL") = true)
    (hkey : truthy (env "SUPABASE_SERVICE_ROLE_KEY") = true) :
    LogWriter.main env (fun _ _ => .interrupted evs) =
      (.exitNormal ["Log writer stopped."], evs) ∧
    (∀ (e : Err) (evs₂ : List Event),
      LogWriter.main env (fun _ _ => .failed evs₂ e) = (.uncaught e, evs₂)) ∧
    (∀ e : Err,
      (MainResult.exitNormal ["Log writer stopped."] : MainResult) ≠
        .uncaught e) := by
  have hcfg : load_config env =
      .ok ((env "SUPABASE_URL").getD "",
        (env "SUPABASE_SERVICE_ROLE_KEY").getD "") := by
    simp only [load_config]
    rw [if_neg]
    simp [hurl, hkey]
  refine ⟨?_, ?_, ?_⟩
  · rw [LogWriter.main, hcfg]
  · intro e evs₂
    rw [LogWriter.main, hcfg]
  · intro e h
    exact MainResult.noConfusion h

/-- C4 witness: with a concrete valid environment, an interrupt yields
the normal "stopped" exit and a failure yields an uncaught error. -/
theorem C4_interrupt_clean_stop_witness :
    (truthy ((fun s => if s = "SUPABASE_URL" then some "http://localhost"
        else if s = "SUPABASE_SERVICE_ROLE_KEY" then some "key"
        else none) "SUPABASE_URL") = true ∧
     truthy ((fun s => if s = "SUPABASE_URL" then some "http://localhost"
        else if s = "SUPABASE_SERVICE_ROLE_KEY" then some "key"
        else none) "SUPABASE_SERVICE_ROLE_KEY") = true) ∧
    (LogWriter.main
        (fun s => if s = "SUPABASE_URL" then some "http://localhost"
          else if s = "SUPABASE_SERVICE_ROLE_KEY" then some "key"
          else none)
        (fun _ _ => .interrupted []) =
      (.exitNormal ["Log writer stopped."], []) ∧
    (∀ (e : Err) (evs₂ : List Event),
      LogWriter.main
        (fun s => if s = "SUPABASE_URL" then some "http://localhost"
          else if s = "SUPABASE_SERVICE_ROLE_KEY" then some "key"
          else none)
        (fun _ _ => .failed evs₂ e) = (.uncaught e, evs₂)) ∧
    (∀ e : Err,
      (MainResult.exitNormal ["Log writer stopped."] : MainResult) ≠
        .uncaught e)) :=
  ⟨⟨by decide, by decide⟩,
    C4_interrupt_clean_stop
      (fun s => if s = "SUPABASE_URL" then some "http://localhost"
        else if s = "SUPABASE_SERVICE_ROLE_KEY" then some "key"
        else none)
      [] (by decide) (by decide)⟩

/-- C6: if either required environment value (`SUPABASE_URL` or
`SUPABASE_SERVICE_ROLE_KEY`) is missing, `main` fails before any loop
iteration runs — the event trace is empty, so no insertion attempt is
made — and the configuration error's message names the missing
variable (it lists both required names, the missing one included). -/
theorem C6_missing_config_fails_fast (env : String → Option String)
    (run : String → String → RunOutcome)
    (hmiss : ¬ truthy (env "SUPABASE_URL") = true ∨
      ¬ truthy (env "SUPABASE_SERVICE_ROLE_KEY") = true) :
    LogWriter.main env run =
      (.uncaught (.runtimeError missingConfigMsg none), []) ∧
    attempts [] = [] ∧
    (∃ a b, missingConfigMsg = a ++ "SUPABASE_URL" ++ b) ∧
    (∃ a b, missingConfigMsg = a ++ "SUPABASE_SERVICE_ROLE_KEY" ++ b) := by
  have hcfg : load_config env =
      .error (.runtimeError missingConfigMsg none) := by
    simp only [load_config]
    rw [if_pos hmiss]
    rfl
  refine ⟨?_, rfl, ?_, ?_⟩
  · rw [LogWriter.main, hcfg]
  · exact ⟨"Missing ", " or SUPABASE_SERVICE_ROLE_KEY in env.", rfl⟩
  · exact ⟨"Missing SUPABASE_URL or ", " in env.", rfl⟩

/-- C6 witness: with an empty environment, `main` fails with the
configuration error and the empty trace. -/
theorem C6_missing_config_fails_fast_witness :
    (¬ truthy ((fun _ => none) "SUPABASE_URL") = true ∨
      ¬ truthy ((fun _ => none) "SUPABASE_SERVICE_ROLE_KEY") = true) ∧
    (LogWriter.main (fun _ => none) (fun _ _ => .completed []) =
      (.uncaught (.runtimeError missingConfigMsg none), []) ∧
    attempts [] = [] ∧
    (∃ a b, missingConfigMsg = a ++ "SUPABASE_URL" ++ b) ∧
    (∃ a b, missingConfigMsg = a ++ "SUPABASE_SERVICE_ROLE_KEY" ++ b)) :=
  ⟨Or.inl (by decide),
    C6_missing_config_fails_fast (fun _ => none) (fun _ _ => .completed [])
      (Or.inl (by decide))⟩

/-- C10: function `load_config` succeeds — returning the `(url, key)`
pair read
from the environment — exactly when both `SUPABASE_URL` and
`SUPABASE_SERVICE_ROLE_KEY` are set to non-empty strings; in every
other case (a variable absent or set to the empty string, which Python
truthiness treats alike) it raises the configuration error. -/
theorem C10_load_config_requires_truthy (env : String → Option String) :
    (∀ u k, env "SUPABASE_URL" = some u →
      env "SUPABASE_SERVICE_ROLE_KEY" = some k → u ≠ "" → k ≠ "" →
      load_config env = .ok (u, k)) ∧
    (¬ (truthy (env "SUPABASE_URL") = true ∧
        truthy (env "SUPABASE_SERVICE_ROLE_KEY") = true) →
      load_config env = .error (.runtimeError missingConfigMsg none)) ∧
    ((∃ u k, load_config env = .ok (u, k)) ↔
      truthy (env "SUPABASE_URL") = true ∧
      truthy (env "SUPABASE_SERVICE_ROLE_KEY") = true) := by
  refine ⟨?_, ?_, ?_⟩
  · intro u k hu hk hune hkne
    simp only [load_config, hu, hk]
    rw [if_neg]
    · simp
    · simp [truthy, hune, hkne]
  · intro h
    simp only [load_config]
    rw [if_pos (by tauto)]
    rfl
  · constructor
    · rintro ⟨u, k, hok⟩
      by_contra h
      simp only [load_config] at hok
      rw [if_pos (by tauto)] at hok
      exact Except.noConfusion hok
    · rintro ⟨hu, hk⟩
      refine ⟨(env "SUPABASE_URL").getD "",
        (env "SUPABASE_SERVICE_ROLE_KEY").getD "", ?_⟩
      simp only [load_config]
      rw [if_neg]
      simp [hu, hk]

/-- C10 witness: an environment with `SUPABASE_URL` set to the empty
string fails configuration loading, and one with both values non-empty
succeeds with that pair. -/
theorem C10_load_config_requires_truthy_witness :
    load_config (fun s => if s = "SUPABASE_URL" then some ""
        else some "key") =
      .error (.runtimeError missingConfigMsg none) ∧
    load_config (fun s => if s = "SUPABASE_URL" then some "http://localhost"
        else some "key") = .ok ("http://localhost", "key") :=
  ⟨((C10_load_config_requires_truthy
      (fun s => if s = "SUPABASE_URL" then some "" else some "key")).2.1
      (by decide)),
    ((C10_load_config_requires_truthy
      (fun s => if s = "SUPABASE_URL" then some "http://localhost"
        else some "key")).1
      "http://localhost" "key" (by decide) (by decide) (by decide)
      (by decide))⟩
